import Mathlib

/-!
Shallow embedding of the order-validation core of the MetaTrader MCP server
client library, together with proofs of the specification claims about it.

The embedding follows the Python source:
* `OrderType`, `TradeRequestActions` — `src/MetaTraderMCPServer/client/types/order_type.py`
  and `trade_request_actions.py` (identical definitions also appear in
  `client/types.py`);
* `send_order` — `src/MetaTraderMCPServer/client/functions/send_order.py`;
* `MT5Orders.get_positions` — `_get_positions` in `src/MetaTraderMCPServer/client/orders.py`;
* `disconnect` — `MT5Connection.disconnect` in
  `src/MetaTraderMCPServer/client/client_connection.py`.

Python floats are modelled by `Rat`; a value that may be a Python `int` or
`float` is modelled by `PyNum`, so that `isinstance(x, float)` checks are
expressible.  The external terminal (the MetaTrader 5 process) is modelled by
an environment record giving the results of its calls; each embedded operation
additionally reports which terminal query, if any, it issued, so that claims
of the form "the terminal's order-send capability is never invoked" are
statable.  Python exceptions are modelled with `Except`; an embedded function
returning outside `Except` is total, i.e. raises nothing.
-/

/-- Embedding of the Python string method `.upper()` (the enum names involved
are ASCII). -/
def pyUpper (s : String) : String := ⟨s.data.map Char.toUpper⟩

/-- A Python numeric value: either an `int` or a `float`.  Floats are modelled
by rationals. -/
inductive PyNum where
  | pint (n : Int)
  | pfloat (q : Rat)
deriving DecidableEq, Repr

/-- Numeric value of a `PyNum` (Python arithmetic comparisons coerce int and
float to the same number line). -/
def PyNum.toRat : PyNum → Rat
  | .pint n => (n : Rat)
  | .pfloat q => q

/-- Embedding of `isinstance(x, float)`. -/
def PyNum.isFloat : PyNum → Bool
  | .pint _ => false
  | .pfloat _ => true

/-- Embedding of the Python conversion `float(x)` on numeric input. -/
def PyNum.float (x : PyNum) : PyNum := .pfloat x.toRat

/-- Order types, from `client/types/order_type.py` (`class OrderType(Enum)`). -/
inductive OrderType where
  | BUY
  | SELL
  | BUY_LIMIT
  | SELL_LIMIT
  | BUY_STOP
  | SELL_STOP
  | BUY_STOP_LIMIT
  | SELL_STOP_LIMIT
  | CLOSE_BY
deriving DecidableEq, Repr

/-- Numeric `.value` of each `OrderType` member, as in the source. -/
def OrderType.value : OrderType → Int
  | .BUY => 0
  | .SELL => 1
  | .BUY_LIMIT => 2
  | .SELL_LIMIT => 3
  | .BUY_STOP => 4
  | .SELL_STOP => 5
  | .BUY_STOP_LIMIT => 6
  | .SELL_STOP_LIMIT => 7
  | .CLOSE_BY => 8

/-- The `.name` of each `OrderType` member. -/
def OrderType.nameStr : OrderType → String
  | .BUY => "BUY"
  | .SELL => "SELL"
  | .BUY_LIMIT => "BUY_LIMIT"
  | .SELL_LIMIT => "SELL_LIMIT"
  | .BUY_STOP => "BUY_STOP"
  | .SELL_STOP => "SELL_STOP"
  | .BUY_STOP_LIMIT => "BUY_STOP_LIMIT"
  | .SELL_STOP_LIMIT => "SELL_STOP_LIMIT"
  | .CLOSE_BY => "CLOSE_BY"

/-- The members of `OrderType` in declaration order (Python iterates an `Enum`
class in declaration order). -/
def OrderType.members : List OrderType :=
  [.BUY, .SELL, .BUY_LIMIT, .SELL_LIMIT, .BUY_STOP, .SELL_STOP,
   .BUY_STOP_LIMIT, .SELL_STOP_LIMIT, .CLOSE_BY]

/-- Embedding of `OrderType.to_string(code, default=None)`: the first member
whose `.value` equals `code` gives its name; otherwise the Python expression
`default or f"UNKNOWN_{code}"` (note that `or` also replaces an empty-string
default). -/
def OrderType.to_string (code : Int) (dflt : Option String) : String :=
  match OrderType.members.find? (fun t => t.value == code) with
  | some t => t.nameStr
  | none =>
    match dflt with
    | some d => if d == "" then "UNKNOWN_" ++ toString code else d
    | none => "UNKNOWN_" ++ toString code

/-- Embedding of the Python `Enum` name lookup `cls[name]`. -/
def OrderType.fromName (s : String) : Option OrderType :=
  OrderType.members.find? (fun t => t.nameStr == s)

/-- Embedding of `OrderType.to_code(name, default=None)`:
`cls[name.upper()].value`, with `KeyError` mapped to the default. -/
def OrderType.to_code (name : String) (dflt : Option Int) : Option Int :=
  match OrderType.fromName (pyUpper name) with
  | some t => some t.value
  | none => dflt

/-- Trade request actions, from `client/types/trade_request_actions.py`. -/
inductive TradeRequestActions where
  | DEAL
  | PENDING
  | SLTP
  | MODIFY
  | REMOVE
  | CLOSE_BY
deriving DecidableEq, Repr

/-- Numeric `.value` of each `TradeRequestActions` member. -/
def TradeRequestActions.value : TradeRequestActions → Int
  | .DEAL => 1
  | .PENDING => 5
  | .SLTP => 6
  | .MODIFY => 7
  | .REMOVE => 8
  | .CLOSE_BY => 10

/-- Result of `send_order`, one constructor per syntactically distinct
return site of the Python function:
* `failure msg` — an early `{"success": False, "message": msg}` validation
  return;
* `sent_error code desc` — `order_send` was called and `last_error()` gave a
  negative code: `{"success": False, "message": f"Error {code}: {desc}"}`;
* `sent_ok` — `order_send` was called and succeeded:
  `{"success": True, "message": "Order sent successfully"}`;
* `unknown` — the final fall-through dictionary
  (`'success': False, 'return_message': 'Unknown error'`), reached by every
  non-DEAL action. -/
inductive SendOutcome where
  | failure (message : String)
  | sent_error (code : Int) (desc : String)
  | sent_ok
  | unknown
deriving DecidableEq, Repr

/-- The `success` flag of each `send_order` return site. -/
def SendOutcome.successFlag : SendOutcome → Bool
  | .failure _ => false
  | .sent_error _ _ => false
  | .sent_ok => true
  | .unknown => false

/-- Environment describing the external terminal as `send_order` observes it:
the symbol list returned by `MT5Market.get_symbols(query)` for each query
string, and the `(code, description)` pair `mt5.last_error()` reports after
`mt5.order_send`. -/
structure Terminal where
  symbols : String → List String
  lastError : Int × String

/-- Embedding of `send_order` from
`src/MetaTraderMCPServer/client/functions/send_order.py`.

The `action` and `order_type` arguments are taken already in canonical enum
form: the source accepts `Union[str, int, Enum]` and normalises via
`TradeRequestActions.validate` / `OrderType.validate` (a normalisation step,
identity on already-typed values) before any use.  `volume`, `price`, `sl`,
`tp` are `PyNum` so the source's `isinstance(..., float)` tests are kept;
note the source computes `sl = float(sl); tp = float(tp)` before testing
`isinstance(sl, float)`, so that test is kept but can never fail.

Returns the outcome together with a flag recording whether
`mt5.order_send` was invoked. -/
def send_order (env : Terminal) (action : TradeRequestActions) (symbol : String)
    (volume : PyNum) (order_type : OrderType) (price : PyNum)
    (sl tp : PyNum) : SendOutcome × Bool :=
  -- Validate symbol
  if (env.symbols symbol).length = 0 then (.failure "Invalid symbol", false)
  -- Validate volume
  else if volume.toRat ≤ 0 ∨ 100 < volume.toRat then (.failure "Invalid volume", false)
  -- Validate price
  else if ¬ price.isFloat then (.failure "Invalid price", false)
  else
    -- Validate TP and SL: sl = float(sl); tp = float(tp)
    let sl := sl.float
    let tp := tp.float
    if ¬ sl.isFloat ∨ ¬ tp.isFloat then (.failure "Invalid SL or TP", false)
    else
      match action with
      | .DEAL =>
        if order_type ≠ .BUY ∧ order_type ≠ .SELL then
          (.failure "Invalid order type, must be BUY or SELL", false)
        else if order_type = .BUY ∧ sl.toRat ≥ price.toRat then
          (.failure "Stop loss must be below the price", false)
        else if order_type = .BUY ∧ sl.toRat > tp.toRat then
          (.failure "Stop loss must be below the take profit", false)
        else if order_type = .SELL ∧ sl.toRat ≤ price.toRat then
          (.failure "Stop loss must be above the price", false)
        else if order_type = .SELL ∧ sl.toRat < tp.toRat then
          (.failure "Stop loss must be above the take profit", false)
        else if env.lastError.1 < 0 then
          (.sent_error env.lastError.1 env.lastError.2, true)
        else (.sent_ok, true)
      | _ => (.unknown, false)

/-- Embedding of the Python string method `.lower()`. -/
def pyLower (s : String) : String := ⟨s.data.map Char.toLower⟩

/-- Embedding of the Python substring test `sub in s`. -/
def pyContains (s sub : String) : Bool := decide (List.IsInfix sub.data s.data)

/-- Embedding of the sign-and-digits core of the Python conversion `int(s)`
(surrounding whitespace and underscore group separators are not modelled):
`none` models `ValueError`. -/
def parseDigits : List Char → Option Nat
  | [] => none
  | cs =>
    if cs.all Char.isDigit then
      some (cs.foldl (fun acc c => 10 * acc + (c.toNat - 48)) 0)
    else none

/-- Embedding of `int(s)` for a string `s`; see `parseDigits`. -/
def pyInt (s : String) : Option Int :=
  match s.data with
  | '-' :: rest => (parseDigits rest).map (fun n => -(n : Int))
  | '+' :: rest => (parseDigits rest).map (fun n => (n : Int))
  | l => (parseDigits l).map (fun n => (n : Int))

/-- A position record as the terminal returns it.  Only the fields the
embedded operations inspect are kept: the ticket, the open time (the converted
table is sorted by it) and the numeric order-type code (the `type` field,
preserved as the `type_code` column and used by the order-type filter). -/
structure Position where
  ticket : Int
  time : Int
  ptype : Int
deriving DecidableEq, Repr

/-- Insert a position into a list sorted by time descending. -/
def insertByTimeDesc (p : Position) : List Position → List Position
  | [] => [p]
  | q :: qs => if q.time < p.time then p :: q :: qs else q :: insertByTimeDesc p qs

/-- Sort positions by time, descending (the default presentation of the
converted table). -/
def sortByTimeDesc : List Position → List Position
  | [] => []
  | p :: ps => insertByTimeDesc p (sortByTimeDesc ps)

/-- Embedding of `convert_positions_to_dataframe` from `client/utils.py`,
at the level of rows: `None` or an empty tuple gives the empty table, and a
nonempty tuple gives its rows sorted by time descending.  The column renaming
and the human-readable type label added next to `type_code` are presentation
and are not modelled; the numeric code the downstream filter reads is the
`ptype` field. -/
def convert_positions_to_dataframe (positions : Option (List Position)) : List Position :=
  match positions with
  | none => []
  | some ps => if ps.length = 0 then [] else sortByTimeDesc ps

/-- The four shapes of `mt5.positions_get` call that `_get_positions` can
issue. -/
inductive PosQuery where
  | byTicket (t : Int)
  | bySymbol (s : String)
  | byGroup (g : String)
  | unfiltered
deriving DecidableEq, Repr

/-- The `ticket` argument of `_get_positions` is `Union[int, str]`. -/
inductive TicketArg where
  | tint (n : Int)
  | tstr (s : String)
deriving DecidableEq, Repr

/-- Embedding of the ticket coercion in `_get_positions`: a string ticket is
converted with `int(ticket)`, `ValueError` giving `none`. -/
def TicketArg.resolve : TicketArg → Option Int
  | .tint n => some n
  | .tstr s => pyInt s

/-- The `order_type` argument of `_get_positions` is
`Union[str, int, OrderType]`. -/
inductive OrderTypeArg where
  | byStr (s : String)
  | byInt (n : Int)
  | byEnum (t : OrderType)
deriving DecidableEq, Repr

/-- The numeric code `_get_positions` computes from its `order_type`
argument: `OrderType.to_code(s)` for a string (with default `None`), the
`.value` for an enum member, the integer itself otherwise. -/
def OrderTypeArg.code : OrderTypeArg → Option Int
  | .byStr s => OrderType.to_code s none
  | .byInt n => some n
  | .byEnum t => some t.value

/-- Environment for the positions query: the symbol list
`MT5Market.get_symbols(query)` returns per query string, and the tuple of
positions (possibly `None`) `mt5.positions_get` returns for each call shape. -/
structure OrdersTerminal where
  symbols : String → List String
  positions_get : PosQuery → Option (List Position)

/-- Python truthiness of an optional string (`if symbol_name:`): `None` and
the empty string are falsy. -/
def pyTruthy : Option String → Bool
  | none => false
  | some s => !(s == "")

/-- The tail of `_get_positions` once a concrete `mt5.positions_get` call
shape has been chosen: issue the query, convert the result, then filter by
the requested order-type code (the filter runs only on a nonempty table; the
`type_code` column carries the original numeric code). -/
def runPositionsQuery (env : OrdersTerminal) (q : PosQuery)
    (order_type : Option OrderTypeArg) : List Position × Option PosQuery :=
  let positions := env.positions_get q
  let result := if positions.isSome then convert_positions_to_dataframe positions else []
  let result :=
    match order_type with
    | some ot =>
      if result.length ≠ 0 then
        result.filter (fun p =>
          match ot.code with
          | some c => p.ptype == c
          | none => false)
      else result
    | none => result
  (result, some q)

/-- Embedding of `MT5Orders._get_positions` from
`src/MetaTraderMCPServer/client/orders.py`.

Returns the resulting table together with the `mt5.positions_get` call that
was issued, `none` when the terminal positions query was never invoked (the
symbol/group pre-checks call only `MT5Market.get_symbols`). -/
def MT5Orders.get_positions (env : OrdersTerminal) (ticket : Option TicketArg)
    (symbol_name group : Option String) (order_type : Option OrderTypeArg) :
    List Position × Option PosQuery :=
  -- symbol_name and group validation (only performed when a ticket is given)
  if ticket.isSome ∧ pyTruthy symbol_name = true ∧
      (env.symbols (symbol_name.getD "")).length ≠ 1 then ([], none)
  else if ticket.isSome ∧ pyTruthy group = true ∧
      (env.symbols (group.getD "")).length = 0 then ([], none)
  else
    match ticket with
    | some ta =>
      match ta.resolve with
      | none => ([], none)
      | some t => runPositionsQuery env (.byTicket t) order_type
    | none =>
      match symbol_name with
      | some s => runPositionsQuery env (.bySymbol s) order_type
      | none =>
        match group with
        | some g => runPositionsQuery env (.byGroup g) order_type
        | none => runPositionsQuery env .unfiltered order_type

/-- Connection state: the `_connected` flag of `MT5Connection`. -/
structure MT5Connection where
  connected : Bool
deriving DecidableEq, Repr

/-- Behaviour of `mt5.shutdown()` as the environment fixes it: a normal
return of a boolean, or an exception with a message. -/
inductive ShutdownBehavior where
  | returns (b : Bool)
  | raises (msg : String)
deriving DecidableEq, Repr

/-- Environment for `disconnect`: the behaviour of `mt5.shutdown()` and the
`(code, message)` pair `_get_last_error()` reports. -/
structure ConnTerminal where
  shutdown : ShutdownBehavior
  lastError : Int × String

/-- Embedding of `MT5Connection.disconnect` from
`src/MetaTraderMCPServer/client/client_connection.py`.

Returns `(outcome, new state, shutdown invoked?)`; `.ok b` models a normal
return of `b` and `.error msg` models raising `DisconnectionError(msg)`.
Note that the `raise DisconnectionError(...)` on the `result == False` path
sits inside the `try` block, so it is caught by the function's own
`except Exception` handler and re-examined for "not initialized" before
being re-wrapped. -/
def MT5Connection.disconnect (env : ConnTerminal) (conn : MT5Connection) :
    Except String Bool × MT5Connection × Bool :=
  if !conn.connected then (.ok true, conn, false)
  else
    match env.shutdown with
    | .returns true => (.ok true, ⟨false⟩, true)
    | .returns false =>
      let msgA := "Failed to disconnect from MetaTrader 5 terminal: " ++ env.lastError.2
        ++ " (Error code: " ++ toString env.lastError.1 ++ ")"
      if pyContains (pyLower msgA) "not initialized" then (.ok true, ⟨false⟩, true)
      else (.error ("Error disconnecting from MetaTrader 5 terminal: " ++ msgA), conn, true)
    | .raises msg =>
      if pyContains (pyLower msg) "not initialized" then (.ok true, ⟨false⟩, true)
      else (.error ("Error disconnecting from MetaTrader 5 terminal: " ++ msg), conn, true)

/-- Modelled from the spec: the pending-order request builder
(`order/place_pending_order.py` and the order module's `send_order`, imported
by `client/order/__init__.py`) is absent from the source tree, so its
suborder-type selection is taken from the specification text: for PENDING,
the concrete suborder type is derived rather than supplied — for BUY, LIMIT
if `current_ask > requested_price` else STOP; for SELL, LIMIT if
`current_bid < requested_price` else STOP; no pending suborder is derived
for non-BUY/SELL types. -/
def derive_pending_order_type (order_type : OrderType) (price ask bid : Rat) :
    Option OrderType :=
  match order_type with
  | .BUY => some (if price < ask then .BUY_LIMIT else .BUY_STOP)
  | .SELL => some (if bid < price then .SELL_LIMIT else .SELL_STOP)
  | _ => none

/-! Small evaluation lemmas shared by the claim proofs. -/

theorem PyNum.float_isFloat (x : PyNum) : x.float.isFloat = true := rfl

theorem PyNum.float_toRat (x : PyNum) : x.float.toRat = x.toRat := rfl

/-- With the symbol resolvable, the volume in bounds and the price a float,
a DEAL order reduces to the order-type and SL/TP checks followed by the
dispatch to `order_send`. -/
theorem send_order_deal_eval (env : Terminal) (symbol : String) (volume : PyNum)
    (order_type : OrderType) (price sl tp : PyNum)
    (hs : (env.symbols symbol).length ≠ 0)
    (hv : 0 < volume.toRat ∧ volume.toRat ≤ 100)
    (hp : price.isFloat = true) :
    send_order env .DEAL symbol volume order_type price sl tp =
      if order_type ≠ .BUY ∧ order_type ≠ .SELL then
        (.failure "Invalid order type, must be BUY or SELL", false)
      else if order_type = .BUY ∧ sl.toRat ≥ price.toRat then
        (.failure "Stop loss must be below the price", false)
      else if order_type = .BUY ∧ sl.toRat > tp.toRat then
        (.failure "Stop loss must be below the take profit", false)
      else if order_type = .SELL ∧ sl.toRat ≤ price.toRat then
        (.failure "Stop loss must be above the price", false)
      else if order_type = .SELL ∧ sl.toRat < tp.toRat then
        (.failure "Stop loss must be above the take profit", false)
      else if env.lastError.1 < 0 then
        (.sent_error env.lastError.1 env.lastError.2, true)
      else (.sent_ok, true) := by
  unfold send_order
  rw [if_neg (by simpa using hs)]
  rw [if_neg (by push_neg; exact hv)]
  rw [if_neg (by simp [hp])]
  simp only [PyNum.float_isFloat, PyNum.float_toRat, Bool.not_eq_true, or_self,
    if_false, Bool.true_eq_false]
  rfl

/-- With the symbol resolvable, the volume in bounds and the price a float,
every non-DEAL action falls through to the final unknown-error dictionary
without calling `order_send`. -/
theorem send_order_nondeal_eval (env : Terminal) (action : TradeRequestActions)
    (symbol : String) (volume : PyNum) (order_type : OrderType) (price sl tp : PyNum)
    (hs : (env.symbols symbol).length ≠ 0)
    (hv : 0 < volume.toRat ∧ volume.toRat ≤ 100)
    (hp : price.isFloat = true)
    (ha : action ≠ .DEAL) :
    send_order env action symbol volume order_type price sl tp = (.unknown, false) := by
  unfold send_order
  rw [if_neg (by simpa using hs)]
  rw [if_neg (by push_neg; exact hv)]
  rw [if_neg (by simp [hp])]
  simp only [PyNum.float_isFloat, Bool.not_eq_true, or_self, Bool.true_eq_false, if_false]
  cases action with
  | DEAL => exact absurd rfl ha
  | PENDING => rfl
  | SLTP => rfl
  | MODIFY => rfl
  | REMOVE => rfl
  | CLOSE_BY => rfl

/-- C8: for every member `t` of the order-type enumeration (all nine of BUY,
SELL, BUY_LIMIT, SELL_LIMIT, BUY_STOP, SELL_STOP, BUY_STOP_LIMIT,
SELL_STOP_LIMIT, CLOSE_BY), converting its code to its name and back is the
identity: `OrderType.to_code (OrderType.to_string t.value) = t.value`. -/
theorem C8_order_type_round_trip (t : OrderType) :
    OrderType.to_code (OrderType.to_string t.value none) none = some t.value := by
  cases t <;> decide

/-- C2: for a PENDING order request the concrete pending suborder type is
derived by the request builder: for a BUY, requested price below the current
ask gives BUY_LIMIT and requested price at or above the ask gives BUY_STOP;
symmetrically for a SELL against the current bid (SELL_LIMIT if the bid is
below the price, else SELL_STOP). -/
theorem C2_pending_subtype (price ask bid : Rat) :
    (price < ask → derive_pending_order_type .BUY price ask bid = some .BUY_LIMIT) ∧
    (ask ≤ price → derive_pending_order_type .BUY price ask bid = some .BUY_STOP) ∧
    (bid < price → derive_pending_order_type .SELL price ask bid = some .SELL_LIMIT) ∧
    (price ≤ bid → derive_pending_order_type .SELL price ask bid = some .SELL_STOP) := by
  refine ⟨fun h => ?_, fun h => ?_, fun h => ?_, fun h => ?_⟩
  · simp [derive_pending_order_type, if_pos h]
  · simp [derive_pending_order_type, if_neg (not_lt.mpr h)]
  · simp [derive_pending_order_type, if_pos h]
  · simp [derive_pending_order_type, if_neg (not_lt.mpr h)]

/-- Witness for C2 at concrete prices. -/
theorem C2_pending_subtype_witness :
    derive_pending_order_type .BUY 1 2 0 = some .BUY_LIMIT ∧
    derive_pending_order_type .BUY 3 2 0 = some .BUY_STOP ∧
    derive_pending_order_type .SELL 3 0 2 = some .SELL_LIMIT ∧
    derive_pending_order_type .SELL 1 0 2 = some .SELL_STOP :=
  ⟨(C2_pending_subtype 1 2 0).1 (by norm_num),
   (C2_pending_subtype 3 2 0).2.1 (by norm_num),
   (C2_pending_subtype 3 0 2).2.2.1 (by norm_num),
   (C2_pending_subtype 1 0 2).2.2.2 (by norm_num)⟩

/-- C4: a market-order request on a symbol the resolver cannot resolve (the
symbol query returns an empty list) returns the failure result with message
"Invalid symbol", and `order_send` is never invoked for that request. -/
theorem C4_invalid_symbol (env : Terminal) (action : TradeRequestActions)
    (symbol : String) (volume : PyNum) (order_type : OrderType)
    (price sl tp : PyNum) (h : env.symbols symbol = []) :
    send_order env action symbol volume order_type price sl tp =
      (.failure "Invalid symbol", false) := by
  unfold send_order
  rw [if_pos (by simp [h])]

/-- Witness for C4: the end-to-end scenario of the spec at a concrete
unresolvable symbol. -/
theorem C4_invalid_symbol_witness :
    send_order ⟨fun _ => [], (0, "")⟩ .DEAL "NOTASYMBOL" (.pfloat (1/10)) .BUY
      (.pfloat 0) (.pfloat 0) (.pfloat 0) = (.failure "Invalid symbol", false) :=
  C4_invalid_symbol ⟨fun _ => [], (0, "")⟩ .DEAL "NOTASYMBOL" (.pfloat (1/10)) .BUY
    (.pfloat 0) (.pfloat 0) (.pfloat 0) rfl

/-- C10: the position query accepts its ticket as integer or string; a string
ticket that does not parse as an integer makes the query return the empty
table immediately, with no exception and no terminal positions call. -/
theorem C10_bad_ticket_string (env : OrdersTerminal) (s : String)
    (symbol_name group : Option String) (order_type : Option OrderTypeArg)
    (h : pyInt s = none) :
    MT5Orders.get_positions env (some (.tstr s)) symbol_name group order_type =
      ([], none) := by
  unfold MT5Orders.get_positions
  split_ifs with h1 h2
  · rfl
  · rfl
  · simp only [TicketArg.resolve, h]

/-- Witness for C10 at the concrete unparseable ticket string "abc". -/
theorem C10_bad_ticket_string_witness :
    MT5Orders.get_positions ⟨fun _ => [], fun _ => some []⟩ (some (.tstr "abc"))
      none none none = ([], none) :=
  C10_bad_ticket_string ⟨fun _ => [], fun _ => some []⟩ "abc" none none none rfl

/-- send_order with an unresolvable symbol (length-0 resolution). -/
theorem send_order_invalid_symbol_eval (env : Terminal) (action : TradeRequestActions)
    (symbol : String) (volume : PyNum) (order_type : OrderType) (price sl tp : PyNum)
    (h : (env.symbols symbol).length = 0) :
    send_order env action symbol volume order_type price sl tp =
      (.failure "Invalid symbol", false) := by
  unfold send_order
  rw [if_pos h]

/-- send_order with a resolvable symbol and an out-of-bounds volume. -/
theorem send_order_invalid_volume_eval (env : Terminal) (action : TradeRequestActions)
    (symbol : String) (volume : PyNum) (order_type : OrderType) (price sl tp : PyNum)
    (hs : (env.symbols symbol).length ≠ 0)
    (hv : ¬ (0 < volume.toRat ∧ volume.toRat ≤ 100)) :
    send_order env action symbol volume order_type price sl tp =
      (.failure "Invalid volume", false) := by
  unfold send_order
  rw [if_neg hs]
  rw [if_pos ?hc]
  case hc =>
    rcases le_or_lt volume.toRat 0 with h0 | h0
    · exact Or.inl h0
    · refine Or.inr ?_
      by_contra hb
      push_neg at hb
      exact hv ⟨h0, hb⟩

/-- send_order with a resolvable symbol, in-bounds volume and a non-float
price. -/
theorem send_order_invalid_price_eval (env : Terminal) (action : TradeRequestActions)
    (symbol : String) (volume : PyNum) (order_type : OrderType) (price sl tp : PyNum)
    (hs : (env.symbols symbol).length ≠ 0)
    (hv : 0 < volume.toRat ∧ volume.toRat ≤ 100)
    (hp : price.isFloat = false) :
    send_order env action symbol volume order_type price sl tp =
      (.failure "Invalid price", false) := by
  unfold send_order
  rw [if_neg hs]
  rw [if_neg (by push_neg; exact hv)]
  rw [if_pos (by simp [hp])]

/-- C3: with a resolvable symbol, the volume check accepts v iff 0 < v ≤ 100;
a rejected volume yields the failure result "Invalid volume" and the request
is never forwarded to the terminal (the result pairs with an uninvoked
order_send). -/
theorem C3_volume_bounds (env : Terminal) (action : TradeRequestActions)
    (symbol : String) (volume : PyNum) (order_type : OrderType) (price sl tp : PyNum)
    (h : (env.symbols symbol).length ≠ 0) :
    ((send_order env action symbol volume order_type price sl tp).1 =
        .failure "Invalid volume" ↔ ¬ (0 < volume.toRat ∧ volume.toRat ≤ 100)) ∧
    (¬ (0 < volume.toRat ∧ volume.toRat ≤ 100) →
      send_order env action symbol volume order_type price sl tp =
        (.failure "Invalid volume", false)) := by
  have hacc : (0 < volume.toRat ∧ volume.toRat ≤ 100) →
      (send_order env action symbol volume order_type price sl tp).1 ≠
        .failure "Invalid volume" := by
    intro hv
    by_cases hp : price.isFloat = true
    · by_cases ha : action = .DEAL
      · subst ha
        rw [send_order_deal_eval env symbol volume order_type price sl tp h hv hp]
        split_ifs <;> simp
      · rw [send_order_nondeal_eval env action symbol volume order_type price sl tp h hv hp ha]
        simp
    · rw [send_order_invalid_price_eval env action symbol volume order_type price sl tp h hv
        (by simpa using hp)]
      simp
  refine ⟨⟨fun hres => ?_, fun hv => ?_⟩,
    fun hv => send_order_invalid_volume_eval env action symbol volume order_type price sl tp h hv⟩
  · intro hb
    exact hacc hb hres
  · rw [send_order_invalid_volume_eval env action symbol volume order_type price sl tp h hv]

/-- Witness for C3 at concrete volumes: v = 0 is rejected as "Invalid volume"
without a terminal call, and v = 1 is not rejected by the volume check. -/
theorem C3_volume_bounds_witness :
    (send_order ⟨fun _ => ["EURUSD"], (0, "")⟩ .DEAL "EURUSD" (.pfloat 0) .BUY
        (.pfloat 10) (.pfloat 1) (.pfloat 20) = (.failure "Invalid volume", false)) ∧
    ((send_order ⟨fun _ => ["EURUSD"], (0, "")⟩ .DEAL "EURUSD" (.pfloat 1) .BUY
        (.pfloat 10) (.pfloat 1) (.pfloat 20)).1 ≠ .failure "Invalid volume") :=
  ⟨(C3_volume_bounds ⟨fun _ => ["EURUSD"], (0, "")⟩ .DEAL "EURUSD" (.pfloat 0) .BUY
      (.pfloat 10) (.pfloat 1) (.pfloat 20) (by decide)).2 (by decide),
   fun hres =>
    (by decide : ¬ ¬ (0 < (PyNum.pfloat 1).toRat ∧ (PyNum.pfloat 1).toRat ≤ 100))
      ((C3_volume_bounds ⟨fun _ => ["EURUSD"], (0, "")⟩ .DEAL "EURUSD" (.pfloat 1) .BUY
        (.pfloat 10) (.pfloat 1) (.pfloat 20) (by decide)).1.mp hres)⟩

/-- C1 counterexample: a BUY DEAL with entry price 10, stop loss 5 and take
profit 5 (stop loss strictly below entry, stop loss equal to take profit) is
accepted and forwarded to order_send, whereas the claim requires stop loss
strictly below take profit for acceptance. -/
theorem C1_counterexample :
    send_order ⟨fun _ => ["EURUSD"], (0, "")⟩ .DEAL "EURUSD" (.pfloat 1) .BUY
      (.pfloat 10) (.pfloat 5) (.pfloat 5) = (.sent_ok, true) ∧
    (PyNum.pfloat 5).toRat < (PyNum.pfloat 10).toRat ∧
    ¬ (PyNum.pfloat 5).toRat < (PyNum.pfloat 5).toRat :=
  ⟨by decide, by decide, by decide⟩

/-- C1 (amended): for a BUY DEAL past symbol and volume validation with a
float price E — stop loss at or above E is rejected with "Stop loss must be
below the price"; stop loss below E but strictly above take profit is
rejected with "Stop loss must be below the take profit"; stop loss below E
and at or below take profit (equality included) is accepted and forwarded.
Mirrored for SELL: rejected at or below E, rejected strictly below take
profit, accepted above E and at or above take profit. -/
theorem C1_sl_tp_side_consistency (env : Terminal) (symbol : String) (volume : PyNum)
    (price sl tp : PyNum)
    (hs : (env.symbols symbol).length ≠ 0)
    (hv : 0 < volume.toRat ∧ volume.toRat ≤ 100)
    (hp : price.isFloat = true) :
    (sl.toRat ≥ price.toRat →
      send_order env .DEAL symbol volume .BUY price sl tp =
        (.failure "Stop loss must be below the price", false)) ∧
    (sl.toRat < price.toRat → sl.toRat > tp.toRat →
      send_order env .DEAL symbol volume .BUY price sl tp =
        (.failure "Stop loss must be below the take profit", false)) ∧
    (sl.toRat < price.toRat → sl.toRat ≤ tp.toRat →
      (send_order env .DEAL symbol volume .BUY price sl tp).2 = true) ∧
    (sl.toRat ≤ price.toRat →
      send_order env .DEAL symbol volume .SELL price sl tp =
        (.failure "Stop loss must be above the price", false)) ∧
    (sl.toRat > price.toRat → sl.toRat < tp.toRat →
      send_order env .DEAL symbol volume .SELL price sl tp =
        (.failure "Stop loss must be above the take profit", false)) ∧
    (sl.toRat > price.toRat → sl.toRat ≥ tp.toRat →
      (send_order env .DEAL symbol volume .SELL price sl tp).2 = true) := by
  rw [send_order_deal_eval env symbol volume .BUY price sl tp hs hv hp,
    send_order_deal_eval env symbol volume .SELL price sl tp hs hv hp]
  refine ⟨fun h1 => ?_, fun h1 h2 => ?_, fun h1 h2 => ?_,
    fun h1 => ?_, fun h1 h2 => ?_, fun h1 h2 => ?_⟩
  · simp [h1]
  · simp [not_le.mpr h1, h2]
  · have hne : ¬ sl.toRat ≥ price.toRat := not_le.mpr h1
    have hng : ¬ sl.toRat > tp.toRat := not_lt.mpr h2
    simp only [ne_eq, not_true_eq_false, false_and, if_false, true_and, if_neg hne,
      if_neg hng, reduceCtorEq, and_self, and_false]
    split_ifs <;> rfl
  · simp [h1]
  · simp [not_le.mpr h1, h2, not_le]
  · have hne : ¬ sl.toRat ≤ price.toRat := not_le.mpr h1
    have hng : ¬ sl.toRat < tp.toRat := not_lt.mpr h2
    simp only [ne_eq, not_true_eq_false, false_and, and_false, if_false, true_and,
      if_neg hne, if_neg hng, reduceCtorEq, and_self]
    split_ifs <;> rfl

/-- Witness for C1 (amended) at concrete prices: stop loss 12 at or above
entry 10 is rejected; stop loss 5 below entry 10 and below take profit 20 is
accepted and forwarded. -/
theorem C1_sl_tp_side_consistency_witness :
    send_order ⟨fun _ => ["EURUSD"], (0, "")⟩ .DEAL "EURUSD" (.pfloat 1) .BUY
      (.pfloat 10) (.pfloat 12) (.pfloat 20) =
      (.failure "Stop loss must be below the price", false) ∧
    (send_order ⟨fun _ => ["EURUSD"], (0, "")⟩ .DEAL "EURUSD" (.pfloat 1) .BUY
      (.pfloat 10) (.pfloat 5) (.pfloat 20)).2 = true :=
  ⟨(C1_sl_tp_side_consistency ⟨fun _ => ["EURUSD"], (0, "")⟩ "EURUSD" (.pfloat 1)
      (.pfloat 10) (.pfloat 12) (.pfloat 20) (by decide) (by decide) rfl).1 (by decide),
   (C1_sl_tp_side_consistency ⟨fun _ => ["EURUSD"], (0, "")⟩ "EURUSD" (.pfloat 1)
      (.pfloat 10) (.pfloat 5) (.pfloat 20) (by decide) (by decide) rfl).2.2.1
     (by decide) (by decide)⟩

/-- C5: the validation checks run in source order — symbol resolvable, then
0 < volume ≤ 100, then price a float, then (for DEAL) order type in
{BUY, SELL}, then SL/TP side-consistency — and the first failing check
short-circuits into a success-false/message result.  Each conjunct holds for
arbitrary later parameters, so an earlier failure masks any later one; the
embedding is a total function, modelling that a validation failure is
returned, not raised. -/
theorem C5_validation_order (env : Terminal) (action : TradeRequestActions)
    (symbol : String) (volume : PyNum) (order_type : OrderType) (price sl tp : PyNum) :
    ((env.symbols symbol).length = 0 →
      send_order env action symbol volume order_type price sl tp =
        (.failure "Invalid symbol", false)) ∧
    ((env.symbols symbol).length ≠ 0 → ¬ (0 < volume.toRat ∧ volume.toRat ≤ 100) →
      send_order env action symbol volume order_type price sl tp =
        (.failure "Invalid volume", false)) ∧
    ((env.symbols symbol).length ≠ 0 → (0 < volume.toRat ∧ volume.toRat ≤ 100) →
      price.isFloat = false →
      send_order env action symbol volume order_type price sl tp =
        (.failure "Invalid price", false)) ∧
    ((env.symbols symbol).length ≠ 0 → (0 < volume.toRat ∧ volume.toRat ≤ 100) →
      price.isFloat = true → order_type ≠ .BUY → order_type ≠ .SELL →
      send_order env .DEAL symbol volume order_type price sl tp =
        (.failure "Invalid order type, must be BUY or SELL", false)) ∧
    ((env.symbols symbol).length ≠ 0 → (0 < volume.toRat ∧ volume.toRat ≤ 100) →
      price.isFloat = true → sl.toRat ≥ price.toRat → sl.toRat > tp.toRat →
      send_order env .DEAL symbol volume .BUY price sl tp =
        (.failure "Stop loss must be below the price", false)) := by
  refine ⟨fun h1 => ?_, fun h1 h2 => ?_, fun h1 h2 h3 => ?_,
    fun h1 h2 h3 hb hs => ?_, fun h1 h2 h3 h4 h5 => ?_⟩
  · exact send_order_invalid_symbol_eval env action symbol volume order_type price sl tp h1
  · exact send_order_invalid_volume_eval env action symbol volume order_type price sl tp h1 h2
  · exact send_order_invalid_price_eval env action symbol volume order_type price sl tp h1 h2 h3
  · rw [send_order_deal_eval env symbol volume order_type price sl tp h1 h2 h3,
      if_pos ⟨hb, hs⟩]
  · rw [send_order_deal_eval env symbol volume .BUY price sl tp h1 h2 h3]
    simp [h4]

/-- Witness for C5: concrete inputs in which each check fails while every
later check also would, showing the earlier check wins. -/
theorem C5_validation_order_witness :
    send_order ⟨fun _ => [], (0, "")⟩ .DEAL "X" (.pfloat 0) .CLOSE_BY (.pint 1)
      (.pfloat 0) (.pfloat 0) = (.failure "Invalid symbol", false) ∧
    send_order ⟨fun _ => ["EURUSD"], (0, "")⟩ .DEAL "EURUSD" (.pfloat 0) .CLOSE_BY
      (.pint 1) (.pfloat 0) (.pfloat 0) = (.failure "Invalid volume", false) ∧
    send_order ⟨fun _ => ["EURUSD"], (0, "")⟩ .DEAL "EURUSD" (.pfloat 1) .CLOSE_BY
      (.pint 1) (.pfloat 0) (.pfloat 0) = (.failure "Invalid price", false) ∧
    send_order ⟨fun _ => ["EURUSD"], (0, "")⟩ .DEAL "EURUSD" (.pfloat 1) .CLOSE_BY
      (.pfloat 10) (.pfloat 20) (.pfloat 0) =
      (.failure "Invalid order type, must be BUY or SELL", false) ∧
    send_order ⟨fun _ => ["EURUSD"], (0, "")⟩ .DEAL "EURUSD" (.pfloat 1) .BUY
      (.pfloat 10) (.pfloat 20) (.pfloat 0) =
      (.failure "Stop loss must be below the price", false) :=
  ⟨(C5_validation_order ⟨fun _ => [], (0, "")⟩ .DEAL "X" (.pfloat 0) .CLOSE_BY (.pint 1)
      (.pfloat 0) (.pfloat 0)).1 rfl,
   (C5_validation_order ⟨fun _ => ["EURUSD"], (0, "")⟩ .DEAL "EURUSD" (.pfloat 0) .CLOSE_BY
      (.pint 1) (.pfloat 0) (.pfloat 0)).2.1 (by decide) (by decide),
   (C5_validation_order ⟨fun _ => ["EURUSD"], (0, "")⟩ .DEAL "EURUSD" (.pfloat 1) .CLOSE_BY
      (.pint 1) (.pfloat 0) (.pfloat 0)).2.2.1 (by decide) (by decide) rfl,
   (C5_validation_order ⟨fun _ => ["EURUSD"], (0, "")⟩ .DEAL "EURUSD" (.pfloat 1) .CLOSE_BY
      (.pfloat 10) (.pfloat 20) (.pfloat 0)).2.2.2.1 (by decide) (by decide) rfl
     (by decide) (by decide),
   (C5_validation_order ⟨fun _ => ["EURUSD"], (0, "")⟩ .DEAL "EURUSD" (.pfloat 1) .BUY
      (.pfloat 10) (.pfloat 20) (.pfloat 0)).2.2.2.2 (by decide) (by decide) rfl
     (by decide) (by decide)⟩

/-- C6: for action DEAL, an order type other than BUY or SELL is rejected
with a failure result before any terminal call, and a DEAL request that is
actually submitted (order_send invoked) references order type BUY or SELL
only. -/
theorem C6_deal_requires_buy_or_sell (env : Terminal) (symbol : String)
    (volume : PyNum) (order_type : OrderType) (price sl tp : PyNum) :
    ((env.symbols symbol).length ≠ 0 → (0 < volume.toRat ∧ volume.toRat ≤ 100) →
      price.isFloat = true → order_type ≠ .BUY → order_type ≠ .SELL →
      send_order env .DEAL symbol volume order_type price sl tp =
        (.failure "Invalid order type, must be BUY or SELL", false)) ∧
    ((send_order env .DEAL symbol volume order_type price sl tp).2 = true →
      order_type = .BUY ∨ order_type = .SELL) := by
  constructor
  · intro h1 h2 h3 hb hs
    rw [send_order_deal_eval env symbol volume order_type price sl tp h1 h2 h3,
      if_pos ⟨hb, hs⟩]
  · intro h
    by_cases h1 : (env.symbols symbol).length = 0
    · rw [send_order_invalid_symbol_eval env .DEAL symbol volume order_type price sl tp h1] at h
      exact absurd h (by simp)
    · by_cases h2 : 0 < volume.toRat ∧ volume.toRat ≤ 100
      · by_cases h3 : price.isFloat = true
        · by_contra hc
          push_neg at hc
          rw [send_order_deal_eval env symbol volume order_type price sl tp h1 h2 h3,
            if_pos hc] at h
          exact absurd h (by simp)
        · rw [send_order_invalid_price_eval env .DEAL symbol volume order_type price sl tp h1 h2
            (by simpa using h3)] at h
          exact absurd h (by simp)
      · rw [send_order_invalid_volume_eval env .DEAL symbol volume order_type price sl tp h1 h2] at h
        exact absurd h (by simp)

/-- Witness for C6: a DEAL with order type SELL_LIMIT is rejected before any
terminal call, and a submitted BUY DEAL indeed has type BUY or SELL. -/
theorem C6_deal_requires_buy_or_sell_witness :
    send_order ⟨fun _ => ["EURUSD"], (0, "")⟩ .DEAL "EURUSD" (.pfloat 1) .SELL_LIMIT
      (.pfloat 10) (.pfloat 0) (.pfloat 20) =
      (.failure "Invalid order type, must be BUY or SELL", false) ∧
    (OrderType.BUY = .BUY ∨ OrderType.BUY = .SELL) :=
  ⟨(C6_deal_requires_buy_or_sell ⟨fun _ => ["EURUSD"], (0, "")⟩ "EURUSD" (.pfloat 1)
      .SELL_LIMIT (.pfloat 10) (.pfloat 0) (.pfloat 20)).1 (by decide) (by decide) rfl
      (by decide) (by decide),
   (C6_deal_requires_buy_or_sell ⟨fun _ => ["EURUSD"], (0, "")⟩ "EURUSD" (.pfloat 1)
      .BUY (.pfloat 10) (.pfloat 1) (.pfloat 20)).2 (by decide)⟩

/-- runPositionsQuery always reports the query it issued. -/
theorem runPositionsQuery_snd (env : OrdersTerminal) (q : PosQuery)
    (order_type : Option OrderTypeArg) :
    (runPositionsQuery env q order_type).2 = some q := rfl

/-- disconnect on an already-disconnected connection is a no-op success that
never touches the terminal. -/
theorem disconnect_not_connected (env : ConnTerminal) (conn : MT5Connection)
    (h : conn.connected = false) :
    MT5Connection.disconnect env conn = (.ok true, conn, false) := by
  unfold MT5Connection.disconnect
  rw [if_pos (by simp [h])]

/-- Any disconnect that returns success leaves the connection flag cleared. -/
theorem disconnect_ok_disconnected (env : ConnTerminal) (conn : MT5Connection)
    (h : (MT5Connection.disconnect env conn).1 = .ok true) :
    (MT5Connection.disconnect env conn).2.1.connected = false := by
  unfold MT5Connection.disconnect at h ⊢
  by_cases hc : conn.connected = true
  · rw [if_neg (by simp [hc])] at h ⊢
    revert h
    rcases env.shutdown with b | m
    · cases b
      · dsimp only
        intro h
        split_ifs at h ⊢ with hin
        rfl
      · intro h
        rfl
    · dsimp only
      intro h
      split_ifs at h ⊢ with hin
      rfl
  · have hf : conn.connected = false := by simpa using hc
    rw [if_pos (by simp [hf])] at h ⊢
    exact hf

/-- C9: disconnect is idempotent — on a connection that was never connected
(or is already disconnected) it is a no-op returning success True, raising
nothing and leaving the state disconnected; and after any successful
disconnect the state is disconnected, so a second disconnect (under any
terminal behaviour) is again a success-True no-op. -/
theorem C9_disconnect_idempotent (env env2 : ConnTerminal) (conn : MT5Connection) :
    (conn.connected = false →
      MT5Connection.disconnect env conn = (.ok true, conn, false)) ∧
    ((MT5Connection.disconnect env conn).1 = .ok true →
      (MT5Connection.disconnect env conn).2.1.connected = false ∧
      MT5Connection.disconnect env2 (MT5Connection.disconnect env conn).2.1 =
        (.ok true, (MT5Connection.disconnect env conn).2.1, false)) :=
  ⟨fun h => disconnect_not_connected env conn h,
   fun h => ⟨disconnect_ok_disconnected env conn h,
     disconnect_not_connected env2 _ (disconnect_ok_disconnected env conn h)⟩⟩

/-- Witness for C9: a disconnect before any connect is a success-True no-op,
and the double disconnect after it behaves the same. -/
theorem C9_disconnect_idempotent_witness :
    MT5Connection.disconnect ⟨.returns true, (0, "")⟩ ⟨false⟩ =
      (.ok true, ⟨false⟩, false) ∧
    ((MT5Connection.disconnect ⟨.returns true, (0, "")⟩ ⟨false⟩).2.1.connected = false ∧
      MT5Connection.disconnect ⟨.returns false, (1, "err")⟩
        (MT5Connection.disconnect ⟨.returns true, (0, "")⟩ ⟨false⟩).2.1 =
        (.ok true, (MT5Connection.disconnect ⟨.returns true, (0, "")⟩ ⟨false⟩).2.1, false)) :=
  ⟨(C9_disconnect_idempotent ⟨.returns true, (0, "")⟩ ⟨.returns false, (1, "err")⟩ ⟨false⟩).1 rfl,
   (C9_disconnect_idempotent ⟨.returns true, (0, "")⟩ ⟨.returns false, (1, "err")⟩ ⟨false⟩).2 rfl⟩

/-- C7: query priority of the position query — when a ticket is supplied, any
terminal positions call issued is by ticket alone; a supplied symbol or group
serves only as a pre-check whose failure (symbol or group resolving to no
symbols) returns the empty table with no terminal call; without a ticket, a
supplied symbol makes the call by symbol with the group argument ignored;
with only a group, the call is by group; with no filter, it is unfiltered. -/
theorem C7_query_priority (env : OrdersTerminal) (ta : TicketArg)
    (symbol_name group : Option String) (order_type : Option OrderTypeArg) :
    (∀ q, (MT5Orders.get_positions env (some ta) symbol_name group order_type).2 = some q →
      ∃ t, ta.resolve = some t ∧ q = .byTicket t) ∧
    (∀ s, symbol_name = some s → s ≠ "" → env.symbols s = [] →
      MT5Orders.get_positions env (some ta) symbol_name group order_type = ([], none)) ∧
    (∀ g, group = some g → g ≠ "" → env.symbols g = [] →
      MT5Orders.get_positions env (some ta) symbol_name group order_type = ([], none)) ∧
    (∀ s, MT5Orders.get_positions env none (some s) group order_type =
        MT5Orders.get_positions env none (some s) none order_type ∧
      (MT5Orders.get_positions env none (some s) group order_type).2 =
        some (.bySymbol s)) ∧
    (∀ g, (MT5Orders.get_positions env none none (some g) order_type).2 =
      some (.byGroup g)) ∧
    (MT5Orders.get_positions env none none none order_type).2 = some .unfiltered := by
  refine ⟨?_, ?_, ?_, ?_, ?_, ?_⟩
  · intro q h
    unfold MT5Orders.get_positions at h
    split_ifs at h with h1 h2
    have h3 : (match ta.resolve with
        | none => (([] : List Position), (none : Option PosQuery))
        | some t => runPositionsQuery env (.byTicket t) order_type).2 = some q := h
    cases hr : ta.resolve with
    | none =>
      rw [hr] at h3
      simp at h3
    | some t =>
      rw [hr] at h3
      simp only [runPositionsQuery_snd, Option.some.injEq] at h3
      exact ⟨t, rfl, h3.symm⟩
  · intro s hs hne hempty
    subst hs
    unfold MT5Orders.get_positions
    rw [if_pos ⟨rfl, by simp [pyTruthy, hne], by simp [hempty]⟩]
  · intro g hg hne hempty
    subst hg
    unfold MT5Orders.get_positions
    split_ifs with h1 h2
    · rfl
    · rfl
    · exact absurd ⟨rfl, by simp [pyTruthy, hne], by simp [hempty]⟩ h2
  · intro s
    constructor
    · unfold MT5Orders.get_positions
      rw [if_neg (by simp), if_neg (by simp), if_neg (by simp), if_neg (by simp)]
    · unfold MT5Orders.get_positions
      rw [if_neg (by simp), if_neg (by simp)]
      exact runPositionsQuery_snd env (.bySymbol s) order_type
  · intro g
    unfold MT5Orders.get_positions
    rw [if_neg (by simp), if_neg (by simp)]
    exact runPositionsQuery_snd env (.byGroup g) order_type
  · unfold MT5Orders.get_positions
    rw [if_neg (by simp), if_neg (by simp)]
    exact runPositionsQuery_snd env .unfiltered order_type

/-- Witness for C7: with a terminal resolving no symbols, a ticket-plus-symbol
query pre-checks the symbol and returns empty without a terminal call; a
symbol query ignores the group; an unfiltered query is issued unfiltered; and
an issued ticket query is by ticket alone. -/
theorem C7_query_priority_witness :
    MT5Orders.get_positions ⟨fun _ => [], fun _ => some []⟩ (some (.tint 7))
      (some "EURUSD") none none = ([], none) ∧
    (MT5Orders.get_positions ⟨fun _ => [], fun _ => some []⟩ none (some "EURUSD")
      (some "g") none).2 = some (.bySymbol "EURUSD") ∧
    (MT5Orders.get_positions ⟨fun _ => [], fun _ => some []⟩ none none none none).2 =
      some .unfiltered ∧
    (∃ t, TicketArg.resolve (.tint 7) = some t ∧ PosQuery.byTicket 7 = .byTicket t) :=
  ⟨(C7_query_priority ⟨fun _ => [], fun _ => some []⟩ (.tint 7) (some "EURUSD") none
      none).2.1 "EURUSD" rfl (by decide) rfl,
   ((C7_query_priority ⟨fun _ => [], fun _ => some []⟩ (.tint 7) none (some "g")
      none).2.2.2.1 "EURUSD").2,
   (C7_query_priority ⟨fun _ => [], fun _ => some []⟩ (.tint 7) none none
      none).2.2.2.2.2,
   (C7_query_priority ⟨fun _ => [], fun _ => some []⟩ (.tint 7) none none
      none).1 (.byTicket 7) (by decide)⟩
